import Mathlib

/-
Verification of the vector-storage provider layer of mastra-finance-home-ai.

Embedding conventions:
* JavaScript numbers are idealised as exact rationals (ℚ).
* Similarity scores are of the form dot / (sqrt normA * sqrt normB).  They are
  represented symbolically by `JNum.fin d p`, denoting the real number d / √p
  (with p = normA·normB > 0 at every construction site).  The IEEE value NaN,
  produced by the unguarded 0/0 in the mock provider, is `JNum.nan`.
* Comparisons on scores go through the rational key d·|d|/p, which equals
  v·|v| for v = d/√p; x ↦ x·|x| is strictly monotone, so key comparison agrees
  with comparison of the denoted real values (proved in `JNum.jge_iff_real`).
* JS `NaN >= x` is false for every x, modelled by `JNum.jge` returning false
  whenever either side is `nan`.
-/

inductive JNum where
  | nan : JNum
  | fin (num : ℚ) (normProd : ℚ) : JNum
deriving DecidableEq

/-- Rational comparison key for a score: for `fin d p` (denoting v = d/√p with
p > 0) this is d·|d|/p = v·|v|, a strictly monotone image of v. -/
def JNum.key : JNum → ℚ
  | .nan => 0
  | .fin d p => d * |d| / p

/-- JS `>=` on scores: false when either side is NaN, otherwise comparison of
the denoted real values (via the monotone key). -/
def JNum.jge : JNum → JNum → Bool
  | .nan, _ => false
  | .fin _ _, .nan => false
  | .fin d1 p1, .fin d2 p2 => decide (JNum.key (.fin d2 p2) ≤ JNum.key (.fin d1 p1))

/-- JS `score >= minScore` where `minScore` is a plain number q (denoted by
`fin q 1`, since q/√1 = q). -/
def JNum.geQ (x : JNum) (q : ℚ) : Bool := x.jge (.fin q 1)

def JNum.IsFin : JNum → Prop
  | .nan => False
  | .fin _ _ => True

/-- dot(a,b) = Σ aᵢ·bᵢ, as computed by the providers' similarity loops. -/
def vecDot (a b : List ℚ) : ℚ := (List.zipWith (· * ·) a b).sum

/-- Squared norm ‖a‖² = Σ aᵢ², the `normA`/`normB` accumulators of the similarity loops. -/
def vecNormSq (a : List ℚ) : ℚ := vecDot a a

/-- MockVectorProvider.cosineSimilarity (mock.ts:134-148).  Unequal lengths
return the number 0.  Otherwise the JS code computes
dot / (√normA · √normB): when normA·normB = 0 the numerator is also 0
(`vecDot_eq_zero_of_normSq_left`), giving 0/0 = NaN; otherwise the value is
dot/√(normA·normB), i.e. `fin dot (normA·normB)`. -/
def mockCosineSimilarity (a b : List ℚ) : JNum :=
  if a.length ≠ b.length then .fin 0 1
  else if vecNormSq a * vecNormSq b = 0 then .nan
  else .fin (vecDot a b) (vecNormSq a * vecNormSq b)

/-- The guarded cosine value of SQLiteProvider.cosineSimilarity
(vector-storage.ts:158-178) once the length check has passed: zero norms give
the number 0, otherwise dot/√(normA·normB). -/
def sqliteCosineValue (a b : List ℚ) : JNum :=
  if vecNormSq a = 0 ∨ vecNormSq b = 0 then .fin 0 1
  else .fin (vecDot a b) (vecNormSq a * vecNormSq b)

/-- SQLiteProvider.cosineSimilarity (vector-storage.ts:158-178): throws on a
length mismatch, otherwise returns the guarded cosine value. -/
def sqliteCosineSimilarity (a b : List ℚ) : Except String JNum :=
  if a.length ≠ b.length then .error "Vectors must have the same length"
  else .ok (sqliteCosineValue a b)

/-! Data model (base.ts).  `VectorMetadata` is modelled with its eight declared
fields; `amount` is numeric, all other fields are strings. -/

structure VectorMetadata where
  hebrewSummary : String
  englishSummary : String
  transactionType : String
  category : String
  amount : ℚ
  originalText : String
  createdAt : String
  embeddingModel : String
deriving DecidableEq

structure VectorRecord where
  id : String
  values : List ℚ
  metadata : VectorMetadata
deriving DecidableEq

structure VectorSearchResult where
  id : String
  score : JNum
  metadata : VectorMetadata
deriving DecidableEq

/-- The `filters` field of VectorSearchOptions (base.ts:26-34). -/
structure SearchFilters where
  transactionType : Option String
  category : Option String
  minAmount : Option ℚ
  maxAmount : Option ℚ
deriving DecidableEq

/-- VectorSearchOptions.  `minScore` is not in the declared TS interface, but
mock.ts:40 and cloudflare-vectorize.ts:47 destructure it from the options at
runtime with default 0.7, so it is carried here as an optional field. -/
structure VectorSearchOptions where
  topK : Option Nat
  minScore : Option ℚ
  filters : Option SearchFilters
deriving DecidableEq

/-! In-memory provider (mock.ts).  The `Map<string, VectorRecord>` is modelled
as an association list in insertion order: JS `Map.set` replaces the value in
place when the key exists and appends otherwise, and `Map.entries()` iterates
in that order. -/

def mapSet (store : List (String × VectorRecord)) (k : String) (v : VectorRecord) :
    List (String × VectorRecord) :=
  match store with
  | [] => [(k, v)]
  | (k', v') :: rest => if k' = k then (k, v) :: rest else (k', v') :: mapSet rest k v

def mapGet (store : List (String × VectorRecord)) (k : String) : Option VectorRecord :=
  match store with
  | [] => none
  | (k', v') :: rest => if k' = k then some v' else mapGet rest k

/-- The metadata actually stored by MockVectorProvider.insert (mock.ts:23-29):
the caller's metadata spread, with `createdAt` set to the insertion time. -/
def stampCreatedAt (now : String) (m : VectorMetadata) : VectorMetadata :=
  { m with createdAt := now }

/-- MockVectorProvider.insert (mock.ts:19-34): upserts every record into the
map keyed by its id, overwriting `createdAt` with the current time `now`
(`new Date().toISOString()`, one idealised timestamp per call).  There is no
validation of the vector length.  The returned synthetic mutationId is an
opaque string and is omitted from the model. -/
def mockInsert (now : String) (store : List (String × VectorRecord))
    (records : List VectorRecord) : List (String × VectorRecord) :=
  records.foldl
    (fun st r => mapSet st r.id { r with metadata := stampCreatedAt now r.metadata })
    store

/-- MockVectorProvider.matchesFilter (mock.ts:150-156).  The equality checks
are guarded by JS truthiness, so an empty-string constraint is inert; the
range checks are guarded by `!== undefined`. -/
def matchesFilter (metadata : VectorMetadata) (filters : SearchFilters) : Bool :=
  (match filters.transactionType with
   | some s => s == "" || metadata.transactionType == s
   | none => true) &&
  (match filters.category with
   | some s => s == "" || metadata.category == s
   | none => true) &&
  (match filters.minAmount with
   | some q => !decide (metadata.amount < q)
   | none => true) &&
  (match filters.maxAmount with
   | some q => !decide (q < metadata.amount)
   | none => true)

/-- One entry of the hardcoded mock result list (mock.ts:77-120), returned by
search when the store is empty. -/
def mockResult1 (now : String) : VectorSearchResult :=
  ⟨"mock_transaction_1", .fin (92/100) 1,
    ⟨"תשלום חודשי לעירית נתניה בסך 942.55 שקלים עבור תשלומי חובה",
     "Monthly payment to Netanya Municipality for 942.55 NIS for mandatory payments",
     "monthly", "mandatory_payments", 94255/100,
     "עירית נתניה הוראת קבע 942.55", now, "text-embedding-3-small"⟩⟩

def mockResult2 (now : String) : VectorSearchResult :=
  ⟨"mock_transaction_2", .fin (85/100) 1,
    ⟨"רכישה ברמי לוי השקמה בסך 156.80 שקלים עבור קניות מזון",
     "Purchase at Rami Levy Hashikma for 156.80 NIS for food shopping",
     "regular", "food_beverage", 15680/100,
     "רמי לוי שיווק השקמה 156.80", now, "text-embedding-3-small"⟩⟩

def mockResult3 (now : String) : VectorSearchResult :=
  ⟨"mock_transaction_3", .fin (78/100) 1,
    ⟨"תשלום דלק בתחנת פז בסך 280.50 שקלים עבור תדלוק רכב",
     "Fuel payment at Paz station for 280.50 NIS for car refueling",
     "regular", "fuel", 28050/100,
     "פז תחנת דלק 280.50", now, "text-embedding-3-small"⟩⟩

/-- MockVectorProvider.getMockResults (mock.ts:74-132): the three hardcoded
results, filtered by the same four metadata conditions as `matchesFilter` and
by `score >= minScore`, truncated to topK. -/
def getMockResults (now : String) (options : VectorSearchOptions) :
    List VectorSearchResult :=
  let topK := options.topK.getD 5
  let minScore := options.minScore.getD (7/10)
  (([mockResult1 now, mockResult2 now, mockResult3 now]).filter fun r =>
    (match options.filters with
     | some f => matchesFilter r.metadata f
     | none => true) && r.score.geQ minScore).take topK

/-- The match list built by MockVectorProvider.search's loop (mock.ts:49-67):
for each stored entry compute the cosine score, skip entries rejected by the
filters, keep those with score >= minScore (NaN fails this comparison). -/
def mockMatches (store : List (String × VectorRecord)) (queryVector : List ℚ)
    (minScore : ℚ) (filters : Option SearchFilters) : List VectorSearchResult :=
  store.filterMap fun entry =>
    let score := mockCosineSimilarity queryVector entry.2.values
    if (match filters with
        | some f => !matchesFilter entry.2.metadata f
        | none => false) then none
    else if score.geQ minScore then some ⟨entry.1, score, entry.2.metadata⟩
    else none

/-- Stable insertion step for the descending sort by rational key. -/
def insertScoreDesc {α : Type} (f : α → ℚ) (x : α) : List α → List α
  | [] => [x]
  | y :: ys => if f y ≤ f x then x :: y :: ys else y :: insertScoreDesc f x ys

/-- Models `matches.sort((a, b) => b.score - a.score)` (mock.ts:70): the
ES-spec sort with this comparator is a stable sort descending by score;
modelled as a stable insertion sort on the rational comparison key. -/
def sortScoreDesc {α : Type} (f : α → ℚ) : List α → List α
  | [] => []
  | x :: xs => insertScoreDesc f x (sortScoreDesc f xs)

/-- MockVectorProvider.search (mock.ts:36-72).  Defaults: topK 5,
minScore 0.7.  An empty store returns the hardcoded mock data; otherwise the
scored-and-thresholded matches are sorted by descending score and truncated
to topK. -/
def mockSearch (now : String) (store : List (String × VectorRecord))
    (queryVector : List ℚ) (options : VectorSearchOptions) :
    List VectorSearchResult :=
  let topK := options.topK.getD 5
  let minScore := options.minScore.getD (7/10)
  if store.isEmpty then getMockResults now options
  else
    (sortScoreDesc (fun r => r.score.key)
      (mockMatches store queryVector minScore options.filters)).take topK

/-! Embedded-file provider (vector-storage.ts SQLiteProvider).  A joined row of
the `transactions` / `transaction_embeddings` tables, as returned by
getAllTransactions (src/database/sqlite.ts).  The stored embedding text is
modelled by the outcome of `JSON.parse`: `none` means the parse throws
(a malformed stored vector), `some v` the deserialized float list. -/

structure SqliteRow where
  id : String
  originalText : String
  hebrewSummary : String
  englishSummary : String
  transactionType : String
  category : String
  amount : ℚ
  createdAt : String
  embeddingModel : String
  hebrewEmbedding : Option (List ℚ)
deriving DecidableEq

/-- The metadata object built from a row by SQLiteProvider.search
(vector-storage.ts:140-149). -/
def rowMetadata (row : SqliteRow) : VectorMetadata :=
  ⟨row.hebrewSummary, row.englishSummary, row.transactionType, row.category,
   row.amount, row.originalText, row.createdAt, row.embeddingModel⟩

/-- A row survives the per-row guards of the search loop: its stored vector
deserializes and its length equals the query vector's length. -/
def rowWellFormed (queryVector : List ℚ) (row : SqliteRow) : Bool :=
  match row.hebrewEmbedding with
  | none => false
  | some emb => emb.length == queryVector.length

/-- The scoring loop of SQLiteProvider.search (vector-storage.ts:106-126):
rows whose embedding fails to parse are skipped (warned, `continue`), rows
with a length mismatch are skipped (warned, `continue`), all remaining rows
are scored with cosineSimilarity — a throw there would abort the search, hence
the Except. -/
def sqliteScoredRows (queryVector : List ℚ) :
    List SqliteRow → Except String (List (SqliteRow × JNum))
  | [] => .ok []
  | row :: rest =>
    match row.hebrewEmbedding with
    | none => sqliteScoredRows queryVector rest
    | some emb =>
      if emb.length ≠ queryVector.length then sqliteScoredRows queryVector rest
      else do
        let s ← sqliteCosineSimilarity queryVector emb
        let tail ← sqliteScoredRows queryVector rest
        pure ((row, s) :: tail)

/-- The well-formed rows paired with their (always defined) cosine scores:
what `sqliteScoredRows` in fact produces (`sqliteScoredRows_eq`). -/
def sqliteScoredRowsSpec (queryVector : List ℚ) (rows : List SqliteRow) :
    List (SqliteRow × JNum) :=
  (rows.filter (rowWellFormed queryVector)).map fun row =>
    (row, sqliteCosineValue queryVector (row.hebrewEmbedding.getD []))

/-- SQLiteProvider.search (vector-storage.ts:83-155).  A truthy category
filter is pushed down to searchTransactionsByCategory (src/database/sqlite.ts):
that query selects from the transactions table alone, with no embeddings
join, so its rows carry no hebrew_embedding column — `row.hebrew_embedding
|| '[]'` then parses to the empty list, modelled by replacing the embedding
with `some []` (such rows length-mismatch any nonempty query and are
skipped).  Otherwise getAllTransactions returns the joined rows (`rows` is
that returned sequence).  Rows are scored (skipping malformed ones), sorted
by descending score with no minScore threshold, truncated to topK, and
mapped to results; skipped rows are only logged, nothing about them is
returned. -/
def sqliteSearch (rows : List SqliteRow) (queryVector : List ℚ)
    (options : VectorSearchOptions) : Except String (List VectorSearchResult) := do
  let topK := options.topK.getD 5
  let selected :=
    match options.filters with
    | some f =>
      match f.category with
      | some c =>
        if c = "" then rows
        else (rows.filter (fun row => row.category == c)).map
          (fun row => { row with hebrewEmbedding := some [] })
      | none => rows
    | none => rows
  let scored ← sqliteScoredRows queryVector selected
  let top := (sortScoreDesc (fun rs => rs.2.key) scored).take topK
  pure (top.map fun rs => ⟨rs.1.id, rs.2, rowMetadata rs.1⟩)

/-! Remote provider (cloudflare-vectorize.ts CloudflareVectorizeProvider) and
the filter builder of cloudflare.ts. -/

/-- The filter expression sent to Vectorize: at most one `$eq` per equality
field and a single `amount` expression holding the `$gte`/`$lte` bounds. -/
structure CloudflareFilter where
  transactionTypeEq : Option String
  categoryEq : Option String
  amountGte : Option ℚ
  amountLte : Option ℚ
deriving DecidableEq

/-- JS truthiness for an optional string field: an absent or empty string is
falsy and contributes no constraint. -/
def truthyOpt : Option String → Option String
  | some s => if s = "" then none else some s
  | none => none

/-- The filter translation of CloudflareVectorizeProvider.search
(cloudflare-vectorize.ts:49-75): truthy equality fields become `$eq`, a
present minAmount/maxAmount becomes one `amount` expression with `$gte`/`$lte`
combined, and an empty expression object is sent as undefined. -/
def buildVectorizeFilter (filters : Option SearchFilters) : Option CloudflareFilter :=
  match filters with
  | none => none
  | some f =>
    let tt := truthyOpt f.transactionType
    let cat := truthyOpt f.category
    if tt = none ∧ cat = none ∧ f.minAmount = none ∧ f.maxAmount = none then none
    else some ⟨tt, cat, f.minAmount, f.maxAmount⟩

/-- CloudflareVectorizeProvider.buildCloudflareFilter (cloudflare.ts:110-137):
`undefined` filters give undefined; otherwise truthy equality fields become
`$eq`, minAmount starts an `amount` expression with `$gte`, maxAmount adds
`$lte` to it (or starts it), and an empty object yields undefined. -/
def buildCloudflareFilter (filters : Option SearchFilters) : Option CloudflareFilter :=
  match filters with
  | none => none
  | some f =>
    let tt := truthyOpt f.transactionType
    let cat := truthyOpt f.category
    let gte := f.minAmount
    let lte := f.maxAmount
    if tt = none ∧ cat = none ∧ gte = none ∧ lte = none then none
    else some ⟨tt, cat, gte, lte⟩

/-- A match of the Vectorize query response (types.ts VectorizeMatch), with
the full metadata that `returnMetadata: 'all'` requests. -/
structure VectorizeMatch where
  id : String
  score : ℚ
  metadata : VectorMetadata
deriving DecidableEq

/-- A result of the remote provider's search, as assembled from a match. -/
structure CFSearchResult where
  id : String
  score : ℚ
  metadata : VectorMetadata
deriving DecidableEq

/-- The response processing of CloudflareVectorizeProvider.search
(cloudflare-vectorize.ts:78-84): matches are filtered by the client-side
`score >= minScore` (default 0.7) and then mapped field-by-field into
results. -/
def vectorizeProcessMatches (options : VectorSearchOptions)
    (respMatches : List VectorizeMatch) : List CFSearchResult :=
  let minScore := options.minScore.getD (7/10)
  (respMatches.filter fun m => decide (minScore ≤ m.score)).map
    fun m => ⟨m.id, m.score, m.metadata⟩

/-! Backend selector (the environment-detection factory,
createVectorStorageProvider). -/

/-- ENV.vectorStorageMode (environment.ts): `auto` unless VECTOR_STORAGE_MODE
forces `cloudflare` or `mock`. -/
inductive VectorStorageMode where
  | auto
  | mockMode
  | cloudflareMode
deriving DecidableEq

inductive ProviderChoice where
  | mockProvider
  | cloudflareProvider
deriving DecidableEq

/-- createVectorStorageProvider (the environment-detection factory cited for
C6): forced mock → mock; forced cloudflare → cloudflare when its binding
probe `isVectorizeBinding(vectorDB)` succeeds, else fallback to mock; auto →
cloudflare when available, else the mock fallback.  With no Cloudflare
credentials/binding configured the probe is false. -/
def createVectorStorageProvider (mode : VectorStorageMode)
    (cloudflareAvailable : Bool) : ProviderChoice :=
  match mode with
  | .mockMode => .mockProvider
  | .cloudflareMode =>
    if cloudflareAvailable then .cloudflareProvider else .mockProvider
  | .auto =>
    if cloudflareAvailable then .cloudflareProvider else .mockProvider

/-! Correctness of the descending stable insertion sort. -/

/-! Supporting lemmas about the providers. -/

/-! Soundness of the symbolic score comparison with respect to the denoted
real values.  x ↦ x·|x| is strictly monotone on ℝ, and for p > 0 the key
d·|d|/p equals v·|v| for the denoted value v = d/√p, so key comparison is
exactly comparison of denoted values. -/

/-- Modelled from the claim's words (refinement reference, not source code):
each present equality constraint becomes an `$eq`, a numeric amount range
becomes a single amount expression combining `$gte` for min and `$lte` for
max, and an absent or empty filter yields no filter expression. -/
def specTranslateFilter (filters : Option SearchFilters) : Option CloudflareFilter :=
  match filters with
  | none => none
  | some f =>
    if f.transactionType = none ∧ f.category = none
        ∧ f.minAmount = none ∧ f.maxAmount = none then none
    else some ⟨f.transactionType, f.category, f.minAmount, f.maxAmount⟩

/-! Concrete data used to instantiate the claims. -/

/-- A metadata value with all string fields empty and amount 0. -/
def metaEmpty : VectorMetadata := ⟨"", "", "", "", 0, "", "", ""⟩

/-- A metadata value that carries a caller-supplied createdAt of 2020. -/
def metaOld : VectorMetadata :=
  ⟨"h", "e", "t", "c", 1, "o", "2020-01-01T00:00:00.000Z", "m"⟩

/-- The metadata of the C6 round-trip record: amount 35. -/
def t1Metadata : VectorMetadata := ⟨"", "", "", "", 35, "", "", ""⟩

theorem JNum.isFin_fin (d p : ℚ) : (JNum.fin d p).IsFin := trivial

theorem JNum.jge_eq_key_le {x y : JNum} (hx : x.IsFin) (hy : y.IsFin) :
    x.jge y = decide (JNum.key y ≤ JNum.key x) := by
  cases x with
  | nan => exact absurd hx id
  | fin d1 p1 =>
    cases y with
    | nan => exact absurd hy id
    | fin d2 p2 => rfl

theorem JNum.isFin_of_jge_left {x y : JNum} (h : x.jge y = true) : x.IsFin := by
  cases x with
  | nan => simp [JNum.jge] at h
  | fin d p => trivial

theorem JNum.isFin_of_jge_right {x y : JNum} (h : x.jge y = true) : y.IsFin := by
  cases x with
  | nan => simp [JNum.jge] at h
  | fin d p =>
    cases y with
    | nan => simp [JNum.jge] at h
    | fin d' p' => trivial

theorem JNum.isFin_of_geQ {x : JNum} {q : ℚ} (h : x.geQ q = true) : x.IsFin :=
  JNum.isFin_of_jge_left h

theorem JNum.key_le_of_jge {x y : JNum} (h : x.jge y = true) :
    JNum.key y ≤ JNum.key x := by
  rw [JNum.jge_eq_key_le (JNum.isFin_of_jge_left h) (JNum.isFin_of_jge_right h)] at h
  exact of_decide_eq_true h

theorem JNum.jge_of_key_le {x y : JNum} (hx : x.IsFin) (hy : y.IsFin)
    (h : JNum.key y ≤ JNum.key x) : x.jge y = true := by
  rw [JNum.jge_eq_key_le hx hy]
  exact decide_eq_true h

theorem vecNormSq_nil : vecNormSq [] = 0 := rfl

theorem vecNormSq_cons (x : ℚ) (xs : List ℚ) :
    vecNormSq (x :: xs) = x * x + vecNormSq xs := by
  simp [vecNormSq, vecDot]

theorem vecNormSq_nonneg (a : List ℚ) : 0 ≤ vecNormSq a := by
  induction a with
  | nil => simp [vecNormSq_nil]
  | cons x xs ih =>
    rw [vecNormSq_cons]
    nlinarith [mul_self_nonneg x]

/-- If ‖a‖² = 0 then a is the zero vector, so dot(a,b) = 0: the JS division in
the mock cosine is then exactly 0/0, i.e. NaN. -/
theorem vecDot_eq_zero_of_normSq_left {a : List ℚ} (b : List ℚ)
    (h : vecNormSq a = 0) : vecDot a b = 0 := by
  induction a generalizing b with
  | nil => cases b <;> rfl
  | cons x xs ih =>
    rw [vecNormSq_cons] at h
    have hx2 : 0 ≤ x * x := mul_self_nonneg x
    have hxs : 0 ≤ vecNormSq xs := vecNormSq_nonneg xs
    have hx : x = 0 := by nlinarith
    have hrest : vecNormSq xs = 0 := by nlinarith
    cases b with
    | nil => rfl
    | cons y ys =>
      have : vecDot (x :: xs) (y :: ys) = x * y + vecDot xs ys := by
        simp [vecDot]
      rw [this, hx, ih ys hrest]
      ring

theorem insertScoreDesc_perm {α : Type} (f : α → ℚ) (x : α) (l : List α) :
    List.Perm (insertScoreDesc f x l) (x :: l) := by
  induction l with
  | nil => exact List.Perm.refl _
  | cons y ys ih =>
    simp only [insertScoreDesc]
    split
    · exact List.Perm.refl _
    · exact (ih.cons y).trans (List.Perm.swap x y ys)

theorem sortScoreDesc_perm {α : Type} (f : α → ℚ) (l : List α) :
    List.Perm (sortScoreDesc f l) l := by
  induction l with
  | nil => exact List.Perm.refl _
  | cons x xs ih => exact (insertScoreDesc_perm f x _).trans (ih.cons x)

theorem length_sortScoreDesc {α : Type} (f : α → ℚ) (l : List α) :
    (sortScoreDesc f l).length = l.length :=
  (sortScoreDesc_perm f l).length_eq

theorem mem_sortScoreDesc {α : Type} {f : α → ℚ} {l : List α} {x : α}
    (h : x ∈ sortScoreDesc f l) : x ∈ l :=
  (sortScoreDesc_perm f l).mem_iff.mp h

theorem pairwise_insertScoreDesc {α : Type} {f : α → ℚ} {x : α} {l : List α}
    (h : l.Pairwise (fun a b => f b ≤ f a)) :
    (insertScoreDesc f x l).Pairwise (fun a b => f b ≤ f a) := by
  induction l with
  | nil => simp [insertScoreDesc]
  | cons y ys ih =>
    rw [List.pairwise_cons] at h
    obtain ⟨hy, hys⟩ := h
    simp only [insertScoreDesc]
    split
    case isTrue hle =>
      refine List.pairwise_cons.mpr ⟨?_, List.pairwise_cons.mpr ⟨hy, hys⟩⟩
      intro b hb
      rcases List.mem_cons.mp hb with rfl | hb'
      · exact hle
      · exact le_trans (hy b hb') hle
    case isFalse hlt =>
      refine List.pairwise_cons.mpr ⟨?_, ih hys⟩
      intro b hb
      have hb' := (insertScoreDesc_perm f x ys).mem_iff.mp hb
      rcases List.mem_cons.mp hb' with rfl | hb''
      · exact le_of_not_le hlt
      · exact hy b hb''

theorem pairwise_sortScoreDesc {α : Type} (f : α → ℚ) (l : List α) :
    (sortScoreDesc f l).Pairwise (fun a b => f b ≤ f a) := by
  induction l with
  | nil => simp [sortScoreDesc]
  | cons x xs ih =>
    simp only [sortScoreDesc]
    exact pairwise_insertScoreDesc ih

theorem pairwise_take_drop {α : Type} {R : α → α → Prop} {l : List α}
    (h : l.Pairwise R) (k : Nat) :
    ∀ x ∈ l.take k, ∀ y ∈ l.drop k, R x y := by
  have h' : (l.take k ++ l.drop k).Pairwise R := by
    rw [List.take_append_drop]
    exact h
  exact (List.pairwise_append.mp h').2.2

theorem sqliteCosineValue_isFin (a b : List ℚ) : (sqliteCosineValue a b).IsFin := by
  unfold sqliteCosineValue
  split <;> trivial

theorem sqliteCosineSimilarity_eq_ok {a b : List ℚ} (h : a.length = b.length) :
    sqliteCosineSimilarity a b = .ok (sqliteCosineValue a b) := by
  unfold sqliteCosineSimilarity
  rw [if_neg]
  simp [h]

theorem mockMatches_mem {store : List (String × VectorRecord)} {query : List ℚ}
    {minScore : ℚ} {filters : Option SearchFilters} {r : VectorSearchResult}
    (h : r ∈ mockMatches store query minScore filters) :
    ∃ entry, entry ∈ store ∧
      r = ⟨entry.1, mockCosineSimilarity query entry.2.values, entry.2.metadata⟩ ∧
      (mockCosineSimilarity query entry.2.values).geQ minScore = true := by
  rcases List.mem_filterMap.mp h with ⟨entry, hmem, heq⟩
  dsimp only at heq
  split at heq
  · exact absurd heq (by simp)
  · split at heq
    case isTrue hge =>
      exact ⟨entry, hmem, (Option.some.inj heq).symm, hge⟩
    case isFalse =>
      exact absurd heq (by simp)

theorem mockMatches_isFin {store : List (String × VectorRecord)} {query : List ℚ}
    {minScore : ℚ} {filters : Option SearchFilters} {r : VectorSearchResult}
    (h : r ∈ mockMatches store query minScore filters) : r.score.IsFin := by
  rcases mockMatches_mem h with ⟨entry, -, rfl, hge⟩
  exact JNum.isFin_of_geQ hge

theorem mockSearch_of_ne_nil {now : String} {store : List (String × VectorRecord)}
    {query : List ℚ} {options : VectorSearchOptions} (h : store ≠ []) :
    mockSearch now store query options =
      (sortScoreDesc (fun r => r.score.key)
        (mockMatches store query (options.minScore.getD (7/10)) options.filters)).take
        (options.topK.getD 5) := by
  unfold mockSearch
  rw [if_neg]
  simp [List.isEmpty_iff, h]

theorem sqliteScoredRows_eq (queryVector : List ℚ) (rows : List SqliteRow) :
    sqliteScoredRows queryVector rows = .ok (sqliteScoredRowsSpec queryVector rows) := by
  induction rows with
  | nil => rfl
  | cons row rest ih =>
    unfold sqliteScoredRows
    cases hemb : row.hebrewEmbedding with
    | none =>
      rw [ih]
      simp [sqliteScoredRowsSpec, rowWellFormed, hemb]
    | some emb =>
      dsimp only
      by_cases hlen : emb.length = queryVector.length
      · rw [if_neg (by simp [hlen])]
        rw [sqliteCosineSimilarity_eq_ok hlen.symm, ih]
        simp [sqliteScoredRowsSpec, rowWellFormed, hemb, hlen]
        rfl
      · rw [if_pos hlen, ih]
        simp [sqliteScoredRowsSpec, rowWellFormed, hemb, hlen]

theorem sqliteSearch_filters_none (rows : List SqliteRow) (query : List ℚ)
    (k : Nat) (ms : Option ℚ) :
    sqliteSearch rows query ⟨some k, ms, none⟩ =
      .ok (((sortScoreDesc (fun rs => rs.2.key)
          (sqliteScoredRowsSpec query rows)).take k).map
        (fun rs => ⟨rs.1.id, rs.2, rowMetadata rs.1⟩)) := by
  unfold sqliteSearch
  dsimp only
  rw [sqliteScoredRows_eq]
  rfl

theorem sqliteScoredRowsSpec_filter (query : List ℚ) (rows : List SqliteRow) :
    sqliteScoredRowsSpec query (rows.filter (rowWellFormed query)) =
      sqliteScoredRowsSpec query rows := by
  unfold sqliteScoredRowsSpec
  rw [List.filter_filter]
  simp

theorem mulAbs_strictMono : StrictMono (fun x : ℝ => x * |x|) := by
  intro x y hxy
  rcases le_or_lt 0 x with hx | hx
  · have hy : 0 < y := lt_of_le_of_lt hx hxy
    simp only [abs_of_nonneg hx, abs_of_pos hy]
    nlinarith
  · rcases le_or_lt 0 y with hy | hy
    · have h1 : x * |x| < 0 := by
        rw [abs_of_neg hx]
        nlinarith
      have h2 : 0 ≤ y * |y| := by
        rw [abs_of_nonneg hy]
        nlinarith
      exact lt_of_lt_of_le h1 h2
    · simp only [abs_of_neg hx, abs_of_neg hy]
      nlinarith

theorem mulAbs_le_mulAbs_iff {a b : ℝ} : a * |a| ≤ b * |b| ↔ a ≤ b :=
  mulAbs_strictMono.le_iff_le

theorem key_fin_real (d p : ℚ) (hp : 0 < p) :
    ((JNum.key (.fin d p) : ℚ) : ℝ)
      = ((d : ℝ) / Real.sqrt p) * |(d : ℝ) / Real.sqrt p| := by
  have hpR : (0 : ℝ) < (p : ℝ) := by exact_mod_cast hp
  have hs : (0 : ℝ) < Real.sqrt p := Real.sqrt_pos.mpr hpR
  have habs : |(d : ℝ) / Real.sqrt p| = |(d : ℝ)| / Real.sqrt p := by
    rw [abs_div, abs_of_pos hs]
  rw [habs]
  have hmul : (d : ℝ) / Real.sqrt p * (|(d : ℝ)| / Real.sqrt p)
      = (d : ℝ) * |(d : ℝ)| / (p : ℝ) := by
    rw [div_mul_div_comm, Real.mul_self_sqrt hpR.le]
  rw [hmul]
  show ((d * |d| / p : ℚ) : ℝ) = (d : ℝ) * |(d : ℝ)| / (p : ℝ)
  push_cast
  ring

/-- On genuinely produced scores (p > 0), the Boolean `jge` agrees with
comparison of the denoted real values d/√p. -/
theorem JNum.jge_iff_real {d1 p1 d2 p2 : ℚ} (h1 : 0 < p1) (h2 : 0 < p2) :
    ((JNum.fin d1 p1).jge (.fin d2 p2) = true ↔
      (d2 : ℝ) / Real.sqrt p2 ≤ (d1 : ℝ) / Real.sqrt p1) := by
  rw [JNum.jge_eq_key_le (JNum.isFin_fin d1 p1) (JNum.isFin_fin d2 p2), decide_eq_true_eq]
  have hcast : ∀ x y : ℚ, (x ≤ y) ↔ ((x : ℝ) ≤ (y : ℝ)) := by
    intro x y
    exact_mod_cast Iff.rfl
  rw [hcast, key_fin_real d1 p1 h1, key_fin_real d2 p2 h2, mulAbs_le_mulAbs_iff]

/-- The threshold check `score >= minScore` agrees with the real comparison
q ≤ d/√p (minScore q denoted by q/√1 = q). -/
theorem JNum.geQ_iff_real {d p q : ℚ} (hp : 0 < p) :
    ((JNum.fin d p).geQ q = true ↔ (q : ℝ) ≤ (d : ℝ) / Real.sqrt p) := by
  unfold JNum.geQ
  rw [JNum.jge_iff_real hp one_pos]
  simp [Real.sqrt_one]

theorem mapGet_mapSet_self (store : List (String × VectorRecord)) (k : String)
    (v : VectorRecord) : mapGet (mapSet store k v) k = some v := by
  induction store with
  | nil => simp [mapSet, mapGet]
  | cons kv rest ih =>
    obtain ⟨k', v'⟩ := kv
    simp only [mapSet]
    split
    · simp [mapGet]
    · simp [mapGet, ih]
      intro h
      simp_all

/-! Claim theorems. -/

/-- C1 (amended): the in-memory backend's insert performs no dimension
check: it is total and stores every record — with createdAt stamped —
whatever its vector length, even one disagreeing with the store's
previously established dimensionality, so no DimensionMismatch rejection
exists on this path. -/
theorem C1_insert_no_dimension_check (now : String)
    (store : List (String × VectorRecord)) (r : VectorRecord) :
    mapGet (mockInsert now store [r]) r.id
      = some { r with metadata := stampCreatedAt now r.metadata } := by
  show mapGet (mapSet store r.id _) r.id = _
  exact mapGet_mapSet_self ..

/-- C1 counterexample: inserting a record with a length-10 vector into the
in-memory backend whose established dimensionality is 1536 does not fail with
DimensionMismatch — the record is stored as-is. -/
theorem C1_counterexample :
    mapGet
      (mockInsert "t1"
        (mockInsert "t0" [] [⟨"big", List.replicate 1536 1, metaEmpty⟩])
        [⟨"small", List.replicate 10 1, metaEmpty⟩])
      "small"
      = some ⟨"small", List.replicate 10 1, stampCreatedAt "t1" metaEmpty⟩ := by
  rfl

/-- C9 (amended): the in-memory insert stamps createdAt unconditionally —
overwriting any caller-supplied value with the insertion time — and leaves
every other caller-supplied metadata field unchanged in the stored record. -/
theorem C9_insert_stamp_frame (now : String)
    (store : List (String × VectorRecord)) (r : VectorRecord) :
    mapGet (mockInsert now store [r]) r.id
        = some { r with metadata := stampCreatedAt now r.metadata }
      ∧ (stampCreatedAt now r.metadata).createdAt = now
      ∧ (stampCreatedAt now r.metadata).hebrewSummary = r.metadata.hebrewSummary
      ∧ (stampCreatedAt now r.metadata).englishSummary = r.metadata.englishSummary
      ∧ (stampCreatedAt now r.metadata).transactionType = r.metadata.transactionType
      ∧ (stampCreatedAt now r.metadata).category = r.metadata.category
      ∧ (stampCreatedAt now r.metadata).amount = r.metadata.amount
      ∧ (stampCreatedAt now r.metadata).originalText = r.metadata.originalText
      ∧ (stampCreatedAt now r.metadata).embeddingModel = r.metadata.embeddingModel := by
  refine ⟨?_, rfl, rfl, rfl, rfl, rfl, rfl, rfl, rfl⟩
  show mapGet (mapSet store r.id _) r.id = _
  exact mapGet_mapSet_self ..

/-- C9 counterexample: the claim says a creation timestamp is stamped only if
absent; but a record whose metadata already carries createdAt 2020 is stored
with createdAt overwritten to the (different) insertion time. -/
theorem C9_counterexample :
    (mapGet (mockInsert "2025-06-01T00:00:00.000Z" [] [⟨"x", [1], metaOld⟩]) "x").map
        (fun rec => rec.metadata.createdAt) = some "2025-06-01T00:00:00.000Z"
      ∧ metaOld.createdAt ≠ "2025-06-01T00:00:00.000Z" := by
  exact ⟨rfl, by decide⟩

/-- C5 (amended): re-inserting an existing id overwrites in place
(last-write-wins): after inserting the same id twice, exactly one record is
stored under that id; its vector is the second insert's and its metadata is
the second insert's except createdAt, which insert restamps with the second
insertion time. -/
theorem C5_upsert_last_write_wins (now1 now2 : String) (r1 r2 : VectorRecord)
    (h : r1.id = r2.id) :
    mockInsert now2 (mockInsert now1 [] [r1]) [r2]
      = [(r2.id, { r2 with metadata := stampCreatedAt now2 r2.metadata })] := by
  simp [mockInsert, mapSet, h]

theorem C5_upsert_witness :
    (("x" : String) = "x")
      ∧ mockInsert "t1" (mockInsert "t0" [] [⟨"x", [1], metaEmpty⟩])
          [⟨"x", [2], metaOld⟩]
        = [("x", ⟨"x", [2], stampCreatedAt "t1" metaOld⟩)] :=
  ⟨rfl, C5_upsert_last_write_wins "t0" "t1" ⟨"x", [1], metaEmpty⟩ ⟨"x", [2], metaOld⟩ rfl⟩

/-- C5 counterexample: as literally stated the claim fails — the stored
metadata is not that of the second insert, because insert restamps createdAt:
the second insert carried createdAt 2020 but the stored record says 2025. -/
theorem C5_counterexample :
    (mapGet (mockInsert "2025-06-01T00:00:00.000Z"
        (mockInsert "2024-01-01T00:00:00.000Z" [] [⟨"x", [1], metaEmpty⟩])
        [⟨"x", [2], metaOld⟩]) "x").map (fun rec => rec.metadata)
        = some (stampCreatedAt "2025-06-01T00:00:00.000Z" metaOld)
      ∧ stampCreatedAt "2025-06-01T00:00:00.000Z" metaOld ≠ metaOld := by
  exact ⟨rfl, by decide⟩

/-- C6: with no Cloudflare binding configured (availability probe false) and
mode auto, the factory returns the mock fallback; on it, inserting
t1 = {id "t1", values [1,0,0], metadata with amount 35} and then searching
[1,0,0] with topK 1 round-trips the record: one result, id t1, score
fin 1 1 (= 1/√1 = 1.0), metadata containing amount 35. -/
theorem C6_auto_fallback_roundtrip (now now' : String) :
    createVectorStorageProvider .auto false = .mockProvider
      ∧ mockSearch now' (mockInsert now [] [⟨"t1", [1, 0, 0], t1Metadata⟩])
          [1, 0, 0] ⟨some 1, none, none⟩
        = [⟨"t1", .fin 1 1, stampCreatedAt now t1Metadata⟩]
      ∧ (stampCreatedAt now t1Metadata).amount = 35 := by
  refine ⟨rfl, ?_, rfl⟩
  norm_num [mockSearch, mockInsert, mapSet, mockMatches, mockCosineSimilarity,
    vecDot, vecNormSq, JNum.geQ, JNum.jge, JNum.key, sortScoreDesc,
    insertScoreDesc, List.filterMap, abs_of_nonneg]

/-- C2 (amended): on the in-memory backend, after inserting id "a" with
[1,0] and id "b" with [0,1], search([1,0], topK 2) returns only
[⟨"a", score 1.0⟩]: record "b" scores 0.0, which the default minScore 0.7
threshold silently filters out, so it is not returned at all. -/
theorem C2_search_scenario (nowI nowS : String) (metaA metaB : VectorMetadata) :
    mockSearch nowS
        (mockInsert nowI [] [⟨"a", [1, 0], metaA⟩, ⟨"b", [0, 1], metaB⟩])
        [1, 0] ⟨some 2, none, none⟩
      = [⟨"a", .fin 1 1, stampCreatedAt nowI metaA⟩] := by
  have hab : ("a" : String) ≠ "b" := by decide
  norm_num [mockSearch, mockInsert, mapSet, mockMatches, mockCosineSimilarity,
    vecDot, vecNormSq, JNum.geQ, JNum.jge, JNum.key, sortScoreDesc,
    insertScoreDesc, List.filterMap, abs_of_nonneg, hab]

/-- C2 counterexample: the claim demands two results, ["a", "b"]; the actual
search returns a single result ["a"]. -/
theorem C2_counterexample :
    (mockSearch "t1"
        (mockInsert "t0" [] [⟨"a", [1, 0], metaEmpty⟩, ⟨"b", [0, 1], metaOld⟩])
        [1, 0] ⟨some 2, none, none⟩).map (fun r => r.id) = ["a"]
      ∧ ["a"] ≠ ["a", "b"] := by
  have hab : ("a" : String) ≠ "b" := by decide
  refine ⟨?_, by decide⟩
  norm_num [mockSearch, mockInsert, mapSet, mockMatches, mockCosineSimilarity,
    vecDot, vecNormSq, JNum.geQ, JNum.jge, JNum.key, sortScoreDesc,
    insertScoreDesc, List.filterMap, abs_of_nonneg, hab]

/-- C4 (amended): for equal-length vectors the embedded-file backend's cosine
returns dot/(‖a‖·‖b‖), and returns exactly 0 (fin 0 1 denotes 0/√1 = 0) when
either norm is zero — a defined degenerate value, not an error.  The
in-memory backend's cosine computes the same formula in the non-degenerate
case but has no zero-norm guard: with a zero norm its division is 0/0 and the
result is NaN, not 0. -/
theorem C4_cosine_zero_norm :
    (∀ a b : List ℚ, a.length = b.length → (vecNormSq a = 0 ∨ vecNormSq b = 0) →
        sqliteCosineSimilarity a b = .ok (.fin 0 1))
      ∧ (∀ a b : List ℚ, a.length = b.length → vecNormSq a ≠ 0 → vecNormSq b ≠ 0 →
          sqliteCosineSimilarity a b
            = .ok (.fin (vecDot a b) (vecNormSq a * vecNormSq b)))
      ∧ (∀ a b : List ℚ, a.length = b.length → (vecNormSq a = 0 ∨ vecNormSq b = 0) →
          mockCosineSimilarity a b = .nan)
      ∧ (∀ a b : List ℚ, a.length = b.length → vecNormSq a ≠ 0 → vecNormSq b ≠ 0 →
          mockCosineSimilarity a b
            = .fin (vecDot a b) (vecNormSq a * vecNormSq b)) := by
  refine ⟨?_, ?_, ?_, ?_⟩
  · intro a b hlen hz
    rw [sqliteCosineSimilarity_eq_ok hlen]
    unfold sqliteCosineValue
    rw [if_pos hz]
  · intro a b hlen ha hb
    rw [sqliteCosineSimilarity_eq_ok hlen]
    unfold sqliteCosineValue
    rw [if_neg (by tauto)]
  · intro a b hlen hz
    unfold mockCosineSimilarity
    rw [if_neg (by simp [hlen]), if_pos (by rcases hz with h | h <;> simp [h])]
  · intro a b hlen ha hb
    unfold mockCosineSimilarity
    rw [if_neg (by simp [hlen]), if_neg (by simp [ha, hb])]

theorem C4_witness :
    (([(0 : ℚ)].length = [(0 : ℚ)].length ∧ vecNormSq [(0 : ℚ)] = 0)
        ∧ sqliteCosineSimilarity [(0 : ℚ)] [(0 : ℚ)] = .ok (.fin 0 1)
        ∧ mockCosineSimilarity [(0 : ℚ)] [(0 : ℚ)] = .nan)
      ∧ (([(1 : ℚ)].length = [(1 : ℚ)].length ∧ vecNormSq [(1 : ℚ)] ≠ 0)
        ∧ sqliteCosineSimilarity [(1 : ℚ)] [(1 : ℚ)]
            = .ok (.fin (vecDot [(1 : ℚ)] [(1 : ℚ)])
                (vecNormSq [(1 : ℚ)] * vecNormSq [(1 : ℚ)]))
        ∧ mockCosineSimilarity [(1 : ℚ)] [(1 : ℚ)]
            = .fin (vecDot [(1 : ℚ)] [(1 : ℚ)])
                (vecNormSq [(1 : ℚ)] * vecNormSq [(1 : ℚ)])) := by
  have h0 : vecNormSq [(0 : ℚ)] = 0 := by norm_num [vecNormSq, vecDot]
  have h1 : vecNormSq [(1 : ℚ)] ≠ 0 := by norm_num [vecNormSq, vecDot]
  exact ⟨⟨⟨rfl, h0⟩, C4_cosine_zero_norm.1 _ _ rfl (Or.inl h0),
          C4_cosine_zero_norm.2.2.1 _ _ rfl (Or.inl h0)⟩,
        ⟨⟨rfl, h1⟩, C4_cosine_zero_norm.2.1 _ _ rfl h1 h1,
          C4_cosine_zero_norm.2.2.2 _ _ rfl h1 h1⟩⟩

/-- C4 counterexample: on the in-memory backend the cosine of the zero vector
with itself is NaN (the unguarded 0/0), not the defined degenerate value 0
that the claim requires of every backend. -/
theorem C4_counterexample :
    mockCosineSimilarity [(0 : ℚ)] [(0 : ℚ)] = .nan
      ∧ JNum.nan ≠ JNum.fin 0 1 := by
  have h0 : vecNormSq [(0 : ℚ)] = 0 := by norm_num [vecNormSq, vecDot]
  refine ⟨?_, by decide⟩
  unfold mockCosineSimilarity
  rw [if_neg (by simp), if_pos (by simp [h0])]

theorem assoc_nodup_keys_eq {l : List (String × VectorRecord)}
    (h : (l.map Prod.fst).Nodup) {k : String} {v w : VectorRecord}
    (hv : (k, v) ∈ l) (hw : (k, w) ∈ l) : v = w := by
  induction l with
  | nil => cases hv
  | cons p rest ih =>
    rw [List.map_cons, List.nodup_cons] at h
    obtain ⟨hk, hrest⟩ := h
    rcases List.mem_cons.mp hv with hv1 | hv2 <;>
      rcases List.mem_cons.mp hw with hw1 | hw2
    · rw [← hv1] at hw1
      exact (Prod.mk.injEq .. ▸ hw1).2.symm
    · exact absurd (List.mem_map.mpr ⟨(k, w), hw2, by rw [← hv1]⟩) hk
    · exact absurd (List.mem_map.mpr ⟨(k, v), hv2, by rw [← hw1]⟩) hk
    · exact ih hrest hv2 hw2

/-- C10: when the caller supplies no minScore and the store is nonempty, the
in-memory search applies the default threshold 0.7: every returned result
has score >= 0.7, and a stored record whose score against the query fails
the 0.7 check is never returned, regardless of topK and filters. -/
theorem C10_default_min_score (now : String)
    (store : List (String × VectorRecord)) (query : List ℚ)
    (options : VectorSearchOptions) (hms : options.minScore = none)
    (hne : store ≠ []) (hnodup : (store.map Prod.fst).Nodup) :
    (∀ r ∈ mockSearch now store query options, r.score.geQ (7/10) = true)
      ∧ (∀ id rec, (id, rec) ∈ store →
          (mockCosineSimilarity query rec.values).geQ (7/10) = false →
          ∀ r ∈ mockSearch now store query options, r.id ≠ id) := by
  have hbody := @mockSearch_of_ne_nil now store query options hne
  rw [hms] at hbody
  have hmem : ∀ r ∈ mockSearch now store query options,
      r ∈ mockMatches store query (7/10) options.filters := by
    intro r hr
    rw [hbody] at hr
    exact mem_sortScoreDesc (List.mem_of_mem_take hr)
  constructor
  · intro r hr
    rcases mockMatches_mem (hmem r hr) with ⟨entry, -, rfl, hge⟩
    exact hge
  · intro id rec hrec hlow r hr hid
    rcases mockMatches_mem (hmem r hr) with ⟨entry, hentry, rfl, hge⟩
    have : entry.2 = rec := by
      refine assoc_nodup_keys_eq hnodup ?_ hrec
      rw [← hid]
      exact hentry
    rw [this] at hge
    rw [hge] at hlow
    cases hlow

theorem pairwise_jge_of_key {α : Type} (g : α → JNum) {l : List α}
    (hfin : ∀ r ∈ l, (g r).IsFin)
    (h : l.Pairwise (fun a b => JNum.key (g b) ≤ JNum.key (g a))) :
    l.Pairwise (fun a b => (g a).jge (g b) = true) :=
  h.imp_of_mem fun ha hb hr => JNum.jge_of_key_le (hfin _ ha) (hfin _ hb) hr

theorem sqliteScoredRowsSpec_isFin {queryVector : List ℚ} {rows : List SqliteRow}
    {rs : SqliteRow × JNum} (h : rs ∈ sqliteScoredRowsSpec queryVector rows) :
    rs.2.IsFin := by
  rcases List.mem_map.mp h with ⟨row, -, rfl⟩
  exact sqliteCosineValue_isFin ..

/-- C3 (amended): search returns `sorted-descending take topK` of its
brute-force match list, but what enters that list differs from the claim: the
in-memory backend admits only records passing the default minScore 0.7, so
with no options beyond topK it returns min(k, M) results where M counts the
records scoring >= 0.7 — not min(k, N) over all N stored records; the
embedded-file backend applies no threshold and returns min(k, N') results
over the N' well-formed rows.  In both cases results are sorted by
descending score and every returned result scores at least every omitted
match (the brute-force top-k property, stated via a permutation with a
remainder list that is pointwise dominated). -/
theorem C3_top_k_ordering :
    (∀ (now : String) (store : List (String × VectorRecord)) (query : List ℚ)
        (k : Nat), store ≠ [] →
      (mockSearch now store query ⟨some k, none, none⟩).length
          = min k (mockMatches store query (7/10) none).length
        ∧ (mockSearch now store query ⟨some k, none, none⟩).Pairwise
            (fun a b => a.score.jge b.score = true)
        ∧ ∃ rest,
            List.Perm (mockSearch now store query ⟨some k, none, none⟩ ++ rest)
              (mockMatches store query (7/10) none)
          ∧ ∀ x ∈ mockSearch now store query ⟨some k, none, none⟩,
              ∀ y ∈ rest, x.score.jge y.score = true)
    ∧ (∀ (rows : List SqliteRow) (query : List ℚ) (k : Nat),
      ∃ res, sqliteSearch rows query ⟨some k, none, none⟩ = .ok res
        ∧ res.length = min k (rows.filter (rowWellFormed query)).length
        ∧ res.Pairwise (fun a b => a.score.jge b.score = true)
        ∧ ∃ rest,
            List.Perm (res ++ rest)
              ((sqliteScoredRowsSpec query rows).map
                (fun rs => ⟨rs.1.id, rs.2, rowMetadata rs.1⟩))
          ∧ ∀ x ∈ res, ∀ y ∈ rest, x.score.jge y.score = true) := by
  constructor
  · intro now store query k hne
    have hbody := @mockSearch_of_ne_nil now store query ⟨some k, none, none⟩ hne
    dsimp only [Option.getD] at hbody
    have hsp := pairwise_sortScoreDesc (fun r : VectorSearchResult => r.score.key)
      (mockMatches store query (7/10) none)
    have hfins : ∀ r ∈ sortScoreDesc (fun r : VectorSearchResult => r.score.key)
        (mockMatches store query (7/10) none), r.score.IsFin :=
      fun r hr => mockMatches_isFin (mem_sortScoreDesc hr)
    rw [hbody]
    refine ⟨?_, ?_, ?_⟩
    · rw [List.length_take, length_sortScoreDesc]
    · exact pairwise_jge_of_key (fun r => r.score)
        (fun r hr => hfins r (List.mem_of_mem_take hr))
        (List.Pairwise.sublist (List.take_sublist ..) hsp)
    · refine ⟨(sortScoreDesc (fun r : VectorSearchResult => r.score.key)
          (mockMatches store query (7/10) none)).drop k, ?_, ?_⟩
      · rw [List.take_append_drop]
        exact sortScoreDesc_perm ..
      · intro x hx y hy
        exact JNum.jge_of_key_le (hfins x (List.mem_of_mem_take hx))
          (hfins y (List.mem_of_mem_drop hy))
          (pairwise_take_drop hsp k x hx y hy)
  · intro rows query k
    refine ⟨_, sqliteSearch_filters_none rows query k none, ?_, ?_, ?_⟩
    · rw [List.length_map, List.length_take, length_sortScoreDesc,
        sqliteScoredRowsSpec, List.length_map]
    · rw [List.pairwise_map]
      have hsp := pairwise_sortScoreDesc (fun rs : SqliteRow × JNum => rs.2.key)
        (sqliteScoredRowsSpec query rows)
      have hfins : ∀ rs ∈ sortScoreDesc (fun rs : SqliteRow × JNum => rs.2.key)
          (sqliteScoredRowsSpec query rows), rs.2.IsFin :=
        fun rs hrs => sqliteScoredRowsSpec_isFin (mem_sortScoreDesc hrs)
      exact pairwise_jge_of_key (fun rs => rs.2)
        (fun rs hrs => hfins rs (List.mem_of_mem_take hrs))
        (List.Pairwise.sublist (List.take_sublist ..) hsp)
    · refine ⟨((sortScoreDesc (fun rs : SqliteRow × JNum => rs.2.key)
          (sqliteScoredRowsSpec query rows)).drop k).map
            (fun rs => ⟨rs.1.id, rs.2, rowMetadata rs.1⟩), ?_, ?_⟩
      · rw [← List.map_append, List.take_append_drop]
        exact (sortScoreDesc_perm ..).map _
      · have hsp := pairwise_sortScoreDesc (fun rs : SqliteRow × JNum => rs.2.key)
          (sqliteScoredRowsSpec query rows)
        have hfins : ∀ rs ∈ sortScoreDesc (fun rs : SqliteRow × JNum => rs.2.key)
            (sqliteScoredRowsSpec query rows), rs.2.IsFin :=
          fun rs hrs => sqliteScoredRowsSpec_isFin (mem_sortScoreDesc hrs)
        intro x hx y hy
        rcases List.mem_map.mp hx with ⟨a, ha, rfl⟩
        rcases List.mem_map.mp hy with ⟨b, hb, rfl⟩
        exact JNum.jge_of_key_le (hfins a (List.mem_of_mem_take ha))
          (hfins b (List.mem_of_mem_drop hb))
          (pairwise_take_drop hsp k a ha b hb)

/-- C3 counterexample: two stored records and topK 2, yet the in-memory search
returns a single result — not min(k, N) = 2 — because record "b" scores 0.0
and is dropped by the default minScore 0.7. -/
theorem C3_counterexample :
    (mockInsert "t0" [] [⟨"a", [1, 0], metaEmpty⟩, ⟨"b", [0, 1], metaOld⟩]).length = 2
      ∧ (mockSearch "t1"
          (mockInsert "t0" [] [⟨"a", [1, 0], metaEmpty⟩, ⟨"b", [0, 1], metaOld⟩])
          [1, 0] ⟨some 2, none, none⟩).length = 1 := by
  have hab : ("a" : String) ≠ "b" := by decide
  refine ⟨rfl, ?_⟩
  norm_num [mockSearch, mockInsert, mapSet, mockMatches, mockCosineSimilarity,
    vecDot, vecNormSq, JNum.geQ, JNum.jge, JNum.key, sortScoreDesc,
    insertScoreDesc, List.filterMap, abs_of_nonneg, hab]

theorem C3_witness :
    (mockInsert "t0" [] [⟨"a", [1, 0], metaEmpty⟩, ⟨"b", [0, 1], metaOld⟩] ≠ []
      ∧ ((mockSearch "t1"
            (mockInsert "t0" [] [⟨"a", [1, 0], metaEmpty⟩, ⟨"b", [0, 1], metaOld⟩])
            [1, 0] ⟨some 2, none, none⟩).length
            = min 2 (mockMatches
                (mockInsert "t0" [] [⟨"a", [1, 0], metaEmpty⟩, ⟨"b", [0, 1], metaOld⟩])
                [1, 0] (7/10) none).length
          ∧ (mockSearch "t1"
              (mockInsert "t0" [] [⟨"a", [1, 0], metaEmpty⟩, ⟨"b", [0, 1], metaOld⟩])
              [1, 0] ⟨some 2, none, none⟩).Pairwise
              (fun a b => a.score.jge b.score = true)
          ∧ ∃ rest,
              List.Perm (mockSearch "t1"
                  (mockInsert "t0" [] [⟨"a", [1, 0], metaEmpty⟩, ⟨"b", [0, 1], metaOld⟩])
                  [1, 0] ⟨some 2, none, none⟩ ++ rest)
                (mockMatches
                  (mockInsert "t0" [] [⟨"a", [1, 0], metaEmpty⟩, ⟨"b", [0, 1], metaOld⟩])
                  [1, 0] (7/10) none)
            ∧ ∀ x ∈ mockSearch "t1"
                (mockInsert "t0" [] [⟨"a", [1, 0], metaEmpty⟩, ⟨"b", [0, 1], metaOld⟩])
                [1, 0] ⟨some 2, none, none⟩,
                ∀ y ∈ rest, x.score.jge y.score = true))
      ∧ ∃ res, sqliteSearch
            [⟨"r1", "o", "h", "e", "t", "c", 0, "cr", "m", some [1, 0]⟩,
             ⟨"bad", "o", "h", "e", "t", "c", 0, "cr", "m", none⟩]
            [1, 0] ⟨some 1, none, none⟩ = .ok res
        ∧ res.length
            = min 1 ([⟨"r1", "o", "h", "e", "t", "c", 0, "cr", "m", some [1, 0]⟩,
                ⟨"bad", "o", "h", "e", "t", "c", 0, "cr", "m", none⟩].filter
                  (rowWellFormed [1, 0])).length
        ∧ res.Pairwise (fun a b => a.score.jge b.score = true)
        ∧ ∃ rest,
            List.Perm (res ++ rest)
              ((sqliteScoredRowsSpec [1, 0]
                  [⟨"r1", "o", "h", "e", "t", "c", 0, "cr", "m", some [1, 0]⟩,
                   ⟨"bad", "o", "h", "e", "t", "c", 0, "cr", "m", none⟩]).map
                (fun rs => ⟨rs.1.id, rs.2, rowMetadata rs.1⟩))
          ∧ ∀ x ∈ res, ∀ y ∈ rest, x.score.jge y.score = true :=
  ⟨⟨by decide, C3_top_k_ordering.1 "t1"
      (mockInsert "t0" [] [⟨"a", [1, 0], metaEmpty⟩, ⟨"b", [0, 1], metaOld⟩])
      [1, 0] 2 (by decide)⟩,
    C3_top_k_ordering.2
      [⟨"r1", "o", "h", "e", "t", "c", 0, "cr", "m", some [1, 0]⟩,
       ⟨"bad", "o", "h", "e", "t", "c", 0, "cr", "m", none⟩] [1, 0] 1⟩

theorem sqliteSearch_filters_none_getD (rows : List SqliteRow) (query : List ℚ)
    (tk : Option Nat) (ms : Option ℚ) :
    sqliteSearch rows query ⟨tk, ms, none⟩ =
      .ok (((sortScoreDesc (fun rs => rs.2.key)
          (sqliteScoredRowsSpec query rows)).take (tk.getD 5)).map
        (fun rs => ⟨rs.1.id, rs.2, rowMetadata rs.1⟩)) := by
  unfold sqliteSearch
  dsimp only
  rw [sqliteScoredRows_eq]
  rfl

/-- C8 (amended): during an embedded-file search, a stored row whose vector
fails to deserialize or whose length mismatches the query is skipped rather
than aborting the whole search — the caller-visible outcome is exactly the
(successful) search over the well-formed rows alone.  The number of skipped
rows, however, is only logged via console.warn; it is not part of the return
value, so it is not reported to the caller. -/
theorem C8_malformed_rows_skipped (rows : List SqliteRow) (query : List ℚ)
    (options : VectorSearchOptions) (hf : options.filters = none) :
    sqliteSearch rows query options
        = sqliteSearch (rows.filter (rowWellFormed query)) query options
      ∧ ∃ res, sqliteSearch rows query options = .ok res := by
  obtain ⟨tk, ms, fl⟩ := options
  dsimp only at hf
  subst hf
  constructor
  · rw [sqliteSearch_filters_none_getD, sqliteSearch_filters_none_getD,
      sqliteScoredRowsSpec_filter]
  · exact ⟨_, sqliteSearch_filters_none_getD rows query tk ms⟩

theorem C8_witness :
    ((⟨some 5, none, none⟩ : VectorSearchOptions).filters = none)
      ∧ (sqliteSearch
            [⟨"r1", "o", "h", "e", "t", "c", 0, "cr", "m", some [1, 0]⟩,
             ⟨"bad", "o", "h", "e", "t", "c", 0, "cr", "m", none⟩]
            [1, 0] ⟨some 5, none, none⟩
          = sqliteSearch
              ([⟨"r1", "o", "h", "e", "t", "c", 0, "cr", "m", some [1, 0]⟩,
                ⟨"bad", "o", "h", "e", "t", "c", 0, "cr", "m", none⟩].filter
                (rowWellFormed [1, 0]))
              [1, 0] ⟨some 5, none, none⟩
        ∧ ∃ res, sqliteSearch
            [⟨"r1", "o", "h", "e", "t", "c", 0, "cr", "m", some [1, 0]⟩,
             ⟨"bad", "o", "h", "e", "t", "c", 0, "cr", "m", none⟩]
            [1, 0] ⟨some 5, none, none⟩ = .ok res) :=
  ⟨rfl, C8_malformed_rows_skipped
    [⟨"r1", "o", "h", "e", "t", "c", 0, "cr", "m", some [1, 0]⟩,
     ⟨"bad", "o", "h", "e", "t", "c", 0, "cr", "m", none⟩]
    [1, 0] ⟨some 5, none, none⟩ rfl⟩

/-- C8 counterexample: the claim says the number of skipped rows is reported
to the caller.  It is not: adding a malformed row (embedding fails to parse)
leaves the search's caller-visible return value bit-for-bit identical to the
search without it, so no count of skipped rows can reach the caller. -/
theorem C8_counterexample :
    sqliteSearch
        [⟨"r1", "o", "h", "e", "t", "c", 0, "cr", "m", some [1, 0]⟩,
         ⟨"bad", "o", "h", "e", "t", "c", 0, "cr", "m", none⟩]
        [1, 0] ⟨some 5, none, none⟩
      = sqliteSearch [⟨"r1", "o", "h", "e", "t", "c", 0, "cr", "m", some [1, 0]⟩]
          [1, 0] ⟨some 5, none, none⟩
    ∧ (⟨"bad", "o", "h", "e", "t", "c", 0, "cr", "m", none⟩ : SqliteRow).hebrewEmbedding
        = none :=
  ⟨rfl, rfl⟩

theorem C10_witness :
    ((⟨some 2, none, none⟩ : VectorSearchOptions).minScore = none
      ∧ mockInsert "t0" [] [⟨"a", [1, 0], metaEmpty⟩, ⟨"b", [0, 1], metaOld⟩] ≠ []
      ∧ ((mockInsert "t0" [] [⟨"a", [1, 0], metaEmpty⟩, ⟨"b", [0, 1], metaOld⟩]).map
          Prod.fst).Nodup)
    ∧ ((∀ r ∈ mockSearch "t1"
          (mockInsert "t0" [] [⟨"a", [1, 0], metaEmpty⟩, ⟨"b", [0, 1], metaOld⟩])
          [1, 0] ⟨some 2, none, none⟩, r.score.geQ (7/10) = true)
      ∧ (∀ id rec,
          (id, rec) ∈ mockInsert "t0" [] [⟨"a", [1, 0], metaEmpty⟩, ⟨"b", [0, 1], metaOld⟩] →
          (mockCosineSimilarity [1, 0] rec.values).geQ (7/10) = false →
          ∀ r ∈ mockSearch "t1"
            (mockInsert "t0" [] [⟨"a", [1, 0], metaEmpty⟩, ⟨"b", [0, 1], metaOld⟩])
            [1, 0] ⟨some 2, none, none⟩, r.id ≠ id)) :=
  ⟨⟨rfl, by decide, by decide⟩,
    C10_default_min_score "t1"
      (mockInsert "t0" [] [⟨"a", [1, 0], metaEmpty⟩, ⟨"b", [0, 1], metaOld⟩])
      [1, 0] ⟨some 2, none, none⟩ rfl (by decide) (by decide)⟩

theorem truthyOpt_eq_self {o : Option String} (h : o ≠ some "") : truthyOpt o = o := by
  cases o with
  | none => rfl
  | some s =>
    unfold truthyOpt
    dsimp only
    rw [if_neg]
    intro hs
    exact h (by rw [hs])

/-- C7 (amended): the remote backend's filter translation is as claimed —
truthy equality constraints become $eq, min/max amount combine into one
amount expression, an absent or empty filter is sent as undefined (and the
two remote-client variants build identical filter expressions) — but the
response matches are mapped 1:1 into results only after the client-side
default minScore 0.7 drops every match scoring below 0.7; in general the
result list is a sublist of the 1:1 image, equal to it when all scores pass
the threshold. -/
theorem C7_filter_translation_and_mapping :
    (∀ fo : Option SearchFilters,
      (∀ f, fo = some f → f.transactionType ≠ some "" ∧ f.category ≠ some "") →
      buildVectorizeFilter fo = specTranslateFilter fo)
    ∧ (∀ fo : Option SearchFilters, buildCloudflareFilter fo = buildVectorizeFilter fo)
    ∧ (∀ (tk : Option Nat) (fl : Option SearchFilters) (ms : List VectorizeMatch),
        (∀ m ∈ ms, (7 : ℚ)/10 ≤ m.score) →
        vectorizeProcessMatches ⟨tk, none, fl⟩ ms
          = ms.map (fun m => ⟨m.id, m.score, m.metadata⟩))
    ∧ (∀ (options : VectorSearchOptions) (ms : List VectorizeMatch),
        List.Sublist (vectorizeProcessMatches options ms)
          (ms.map (fun m => ⟨m.id, m.score, m.metadata⟩))) := by
  refine ⟨?_, ?_, ?_, ?_⟩
  · intro fo h
    cases fo with
    | none => rfl
    | some f =>
      obtain ⟨ht, hc⟩ := h f rfl
      simp only [buildVectorizeFilter, specTranslateFilter,
        truthyOpt_eq_self ht, truthyOpt_eq_self hc]
  · intro fo
    cases fo <;> rfl
  · intro tk fl ms h
    simp only [vectorizeProcessMatches, Option.getD]
    rw [List.filter_eq_self.mpr]
    intro m hm
    exact decide_eq_true (h m hm)
  · intro options ms
    unfold vectorizeProcessMatches
    exact (List.filter_sublist ..).map _

theorem C7_witness :
    ((∀ f, (some (⟨some "monthly", none, some 1, some 2⟩ : SearchFilters)) = some f →
        f.transactionType ≠ some "" ∧ f.category ≠ some "")
      ∧ buildVectorizeFilter (some ⟨some "monthly", none, some 1, some 2⟩)
          = specTranslateFilter (some ⟨some "monthly", none, some 1, some 2⟩))
    ∧ ((∀ m ∈ [(⟨"x", 1, metaEmpty⟩ : VectorizeMatch)], (7 : ℚ)/10 ≤ m.score)
      ∧ vectorizeProcessMatches ⟨some 5, none, none⟩ [⟨"x", 1, metaEmpty⟩]
          = [(⟨"x", 1, metaEmpty⟩ : VectorizeMatch)].map
              (fun m => ⟨m.id, m.score, m.metadata⟩)) := by
  have h1 : ∀ f, (some (⟨some "monthly", none, some 1, some 2⟩ : SearchFilters)) = some f →
      f.transactionType ≠ some "" ∧ f.category ≠ some "" := by
    intro f hf
    injection hf with h
    subst h
    exact ⟨by decide, by decide⟩
  have h3 : ∀ m ∈ [(⟨"x", 1, metaEmpty⟩ : VectorizeMatch)], (7 : ℚ)/10 ≤ m.score := by
    intro m hm
    rw [List.mem_singleton] at hm
    subst hm
    norm_num
  exact ⟨⟨h1, C7_filter_translation_and_mapping.1 _ h1⟩,
    ⟨h3, C7_filter_translation_and_mapping.2.2.1 (some 5) none _ h3⟩⟩

/-- C7 counterexample: the claim says response matches are mapped 1:1 into
results; but a single response match with score 0.5 yields an empty result
list (dropped by the client-side default minScore 0.7), while its 1:1 image
has one element. -/
theorem C7_counterexample :
    vectorizeProcessMatches ⟨some 5, none, none⟩ [⟨"x", 1/2, metaEmpty⟩] = []
      ∧ ([(⟨"x", 1/2, metaEmpty⟩ : VectorizeMatch)].map
          (fun m => (⟨m.id, m.score, m.metadata⟩ : CFSearchResult))).length = 1 := by
  refine ⟨?_, rfl⟩
  norm_num [vectorizeProcessMatches]
